import Mathlib

/-!
# Verification of the rosenbridge-go-client connection multiplexer

A shallow embedding of the `rbclient` Go package (types.go / part_001,
helper_funcs.go / part_005, helper_params.go, validations.go,
connection.go / part_006) together with theorems checking the
natural-language specification against it.

Modelling conventions:
* JSON is modelled at the value level (`Json`), not at the byte level;
  `encoding/json` is an external collaborator of the repository, so
  `json.Marshal` / `json.Unmarshal` on the repository's structs are
  embedded as functions between the structs and `Json` values following
  Go's documented semantics (missing keys decode to zero values, `null`
  leaves the zero value in place, a type mismatch is a decode error).
  A Go `[]byte` field marshals to a base64 JSON string; base64 is a
  bijection onto its image, so such strings are carried by the dedicated
  constructor `Json.bytes` holding the original bytes.
* A raw websocket payload (`[]byte` in Go) is a `RawMessage`: either a
  well-formed JSON document or a malformed one (tagged by a `Nat` so that
  distinct malformed payloads stay distinct).
* Handler callbacks are observed through the trace of their invocations
  (`HandlerCall`); pointer identity of `*http.Client` values is modelled
  by an allocation counter; the `*websocket.Conn` handle is
  `Option WSConn` (`none` = the nil pointer).
-/

/-- The JSON value model. `bytes bs` stands for the JSON string holding the
standard base64 encoding of the byte slice `bs` (Go's `encoding/json`
convention for `[]byte`). -/
inductive Json where
  | null : Json
  | bool : Bool → Json
  | num : Int → Json
  | str : String → Json
  | bytes : List Nat → Json
  | arr : List Json → Json
  | obj : List (String × Json) → Json

/-- A raw websocket payload: a well-formed JSON document, or a malformed
byte string (tagged so distinct malformed payloads are distinguishable). -/
inductive RawMessage where
  | wellFormed : Json → RawMessage
  | malformed : Nat → RawMessage

/-- First-match key lookup in a JSON object's field list. -/
def jsonLookup (fields : List (String × Json)) (key : String) : Option Json :=
  match fields with
  | [] => none
  | (k, v) :: rest => if k = key then some v else jsonLookup rest key

/-- Message-type discriminants, from helper_params.go. -/
def typeIncomingMessageReq : String := "INCOMING_MESSAGE_REQ"

/-- Message-type discriminant for outgoing message requests, from helper_params.go. -/
def typeOutgoingMessageReq : String := "OUTGOING_MESSAGE_REQ"

/-- Message-type discriminant for outgoing message responses, from helper_params.go. -/
def typeOutgoingMessageRes : String := "OUTGOING_MESSAGE_RES"

/-- `Persistence` is a string type in the source (part_001). -/
abbrev Persistence := String

/-- `IncomingMessageReq` struct of part_001 (json tags: request_id,
sender_id, message, persist, type); `Message` is a Go `[]byte`. -/
structure IncomingMessageReq where
  RequestID : String
  SenderID : String
  Message : List Nat
  Persist : Persistence
  Type' : String
deriving DecidableEq, Repr

/-- `OutgoingMessageReq` struct of part_001 (json tags: request_id,
receiver_ids, message, persist, type). -/
structure OutgoingMessageReq where
  RequestID : String
  ReceiverIDs : List String
  Message : List Nat
  Persist : Persistence
  Type' : String
deriving DecidableEq, Repr

/-- One element of `OutgoingMessageRes.PerReceiver` (json tags:
receiver_id, code, reason). -/
structure PerReceiverRes where
  ReceiverID : String
  Code : String
  Reason : String
deriving DecidableEq, Repr

/-- `OutgoingMessageRes` struct of part_001 (json tags: request_id, code,
reason, per_receiver, type). -/
structure OutgoingMessageRes where
  RequestID : String
  Code : String
  Reason : String
  PerReceiver : List PerReceiverRes
  Type' : String
deriving DecidableEq, Repr

/-- `httpResponseBody` struct of part_001: `{status_code, custom_code,
data}` where `Data` is `interface{}`, i.e. an arbitrary JSON value. -/
structure httpResponseBody where
  StatusCode : Int
  CustomCode : String
  Data : Json

/- ## Field decoders: Go `json.Unmarshal` semantics per field type. -/

/-- Decode a JSON value into a Go `string` field: `null` leaves the zero
value, a string is taken as is, anything else is a decode error. -/
def decodeStringValue : Json → Option String
  | .null => some ""
  | .str s => some s
  | _ => none

/-- Decode a JSON value into a Go `int` field. -/
def decodeIntValue : Json → Option Int
  | .null => some 0
  | .num n => some n
  | _ => none

/-- Decode a JSON value into a Go `[]byte` field: the value must be the
base64 string of some byte slice (or `null` for the zero value). -/
def decodeBytesValue : Json → Option (List Nat)
  | .null => some []
  | .bytes bs => some bs
  | _ => none

/-- Decode a JSON array's elements into Go `string`s, failing on the
first element that is not a string. -/
def decodeStringList : List Json → Option (List String)
  | [] => some []
  | x :: xs => do
    let s ← decodeStringValue x
    let rest ← decodeStringList xs
    pure (s :: rest)

/-- Decode a JSON value into a Go `[]string` field. -/
def decodeStringListValue : Json → Option (List String)
  | .null => some []
  | .arr xs => decodeStringList xs
  | _ => none

/-- Decode an object field into a Go `string` struct field: a missing key
leaves the zero value (Go structs are permissive records). -/
def decodeStringField (fields : List (String × Json)) (key : String) : Option String :=
  match jsonLookup fields key with
  | none => some ""
  | some v => decodeStringValue v

/-- Decode an object field into a Go `int` struct field. -/
def decodeIntField (fields : List (String × Json)) (key : String) : Option Int :=
  match jsonLookup fields key with
  | none => some 0
  | some v => decodeIntValue v

/-- Decode an object field into a Go `[]byte` struct field. -/
def decodeBytesField (fields : List (String × Json)) (key : String) : Option (List Nat) :=
  match jsonLookup fields key with
  | none => some []
  | some v => decodeBytesValue v

/-- Decode an object field into a Go `[]string` struct field. -/
def decodeStringListField (fields : List (String × Json)) (key : String) : Option (List String) :=
  match jsonLookup fields key with
  | none => some []
  | some v => decodeStringListValue v

/- ## Frame codec: helper_funcs.go / part_005. -/

/-- `unmarshalMessageType` (helper_funcs.go): shallow-decode the payload
into a map and extract the string under the `type` key. Fails (`none`)
when the payload is not a well-formed JSON object, the `type` key is
absent, or its value is not a string. -/
def unmarshalMessageType (message : RawMessage) : Option String :=
  match message with
  | .malformed _ => none
  | .wellFormed j =>
    match j with
    | .obj fields =>
      match jsonLookup fields "type" with
      | none => none
      | some (.str s) => some s
      | some _ => none
    | _ => none

/-- `json.Unmarshal` of a payload into the `IncomingMessageReq` struct
(`unmarshalIncomingMessageReq` of part_005). -/
def unmarshalIncomingMessageReq (message : RawMessage) : Option IncomingMessageReq :=
  match message with
  | .malformed _ => none
  | .wellFormed j =>
    match j with
    | .null => some ⟨"", "", [], "", ""⟩
    | .obj fields => do
      let requestID ← decodeStringField fields "request_id"
      let senderID ← decodeStringField fields "sender_id"
      let msg ← decodeBytesField fields "message"
      let persist ← decodeStringField fields "persist"
      let ty ← decodeStringField fields "type"
      pure ⟨requestID, senderID, msg, persist, ty⟩
    | _ => none

/-- `json.Unmarshal` of one element of `per_receiver`. -/
def unmarshalPerReceiver (j : Json) : Option PerReceiverRes :=
  match j with
  | .null => some ⟨"", "", ""⟩
  | .obj fields => do
    let receiverID ← decodeStringField fields "receiver_id"
    let code ← decodeStringField fields "code"
    let reason ← decodeStringField fields "reason"
    pure ⟨receiverID, code, reason⟩
  | _ => none

/-- Decode the elements of a `per_receiver` JSON array. -/
def decodePerReceiverList : List Json → Option (List PerReceiverRes)
  | [] => some []
  | x :: xs => do
    let p ← unmarshalPerReceiver x
    let rest ← decodePerReceiverList xs
    pure (p :: rest)

/-- `json.Unmarshal` of a JSON value into the `OutgoingMessageRes` struct. -/
def unmarshalOutgoingMessageResJson (j : Json) : Option OutgoingMessageRes :=
  match j with
  | .null => some ⟨"", "", "", [], ""⟩
  | .obj fields => do
    let requestID ← decodeStringField fields "request_id"
    let code ← decodeStringField fields "code"
    let reason ← decodeStringField fields "reason"
    let perReceiver ←
      match jsonLookup fields "per_receiver" with
      | none => some []
      | some .null => some []
      | some (.arr xs) => decodePerReceiverList xs
      | some _ => none
    let ty ← decodeStringField fields "type"
    pure ⟨requestID, code, reason, perReceiver, ty⟩
  | _ => none

/-- `unmarshalOutgoingMessageRes` (part_005) on a raw payload. -/
def unmarshalOutgoingMessageRes (message : RawMessage) : Option OutgoingMessageRes :=
  match message with
  | .malformed _ => none
  | .wellFormed j => unmarshalOutgoingMessageResJson j

/-- `json.Marshal` of an `OutgoingMessageReq` (the serialization performed
by `SendMessage` / `SendMessageAsync`): emits the five tagged fields. -/
def marshalOutgoingMessageReq (r : OutgoingMessageReq) : Json :=
  .obj [("request_id", .str r.RequestID),
        ("receiver_ids", .arr (r.ReceiverIDs.map .str)),
        ("message", .bytes r.Message),
        ("persist", .str r.Persist),
        ("type", .str r.Type')]

/-- `json.Unmarshal` of a JSON value into the `OutgoingMessageReq` struct
(the decode direction of the round-trip property; Go struct decoding is
permissive: missing keys and `null` leave zero values). -/
def unmarshalOutgoingMessageReqJson (j : Json) : Option OutgoingMessageReq :=
  match j with
  | .null => some ⟨"", [], [], "", ""⟩
  | .obj fields => do
    let requestID ← decodeStringField fields "request_id"
    let receiverIDs ← decodeStringListField fields "receiver_ids"
    let msg ← decodeBytesField fields "message"
    let persist ← decodeStringField fields "persist"
    let ty ← decodeStringField fields "type"
    pure ⟨requestID, receiverIDs, msg, persist, ty⟩
  | _ => none

/-- `unmarshalHTTPResponse` (part_005), after the body bytes are read:
`json.Unmarshal` of the body into `httpResponseBody`. The `Data` field has
type `interface{}`, so it stores the JSON value as is (missing key = the
nil interface, which re-marshals as `null`). -/
def unmarshalHTTPResponse (body : RawMessage) : Option httpResponseBody :=
  match body with
  | .malformed _ => none
  | .wellFormed j =>
    match j with
    | .null => some ⟨0, "", .null⟩
    | .obj fields => do
      let statusCode ← decodeIntField fields "status_code"
      let customCode ← decodeStringField fields "custom_code"
      let data := (jsonLookup fields "data").getD .null
      pure ⟨statusCode, customCode, data⟩
    | _ => none

/-- `json.Marshal` of a `*httpResponseBody` value passed as `interface{}`:
it renders the struct's three tagged fields. -/
def marshalHTTPResponseBody (b : httpResponseBody) : Json :=
  .obj [("status_code", .num b.StatusCode),
        ("custom_code", .str b.CustomCode),
        ("data", b.Data)]

/-- `toOutgoingMessageRes` (part_005): `json.Marshal` of the `interface{}`
argument followed by `json.Unmarshal` into `OutgoingMessageRes`. The
argument is taken here already rendered as its JSON form (marshalling a
JSON value and re-parsing it is the identity), so this is a direct decode
of that JSON value. -/
def toOutgoingMessageRes (data : Json) : Option OutgoingMessageRes :=
  unmarshalOutgoingMessageResJson data

/- ## Address helpers: helper_funcs.go / part_005. -/

/-- `rand.Intn` of math/rand, modelled with the pseudorandom source as an
explicit `seed` argument: for `n > 0` the result ranges over exactly
`[0, n)`, and every value in `[0, n)` is produced by some seed. -/
def randIntn (seed n : Nat) : Nat := seed % n

/-- `getRandomAddr` (helper_funcs.go): picks `addr[rand.Intn(len(addr))]`.
The out-of-range default of `getD` is never reached for a non-empty list. -/
def getRandomAddr (seed : Nat) (addr : List String) : String :=
  addr.getD (randIntn seed addr.length) ""

/- ## Connection state: part_006 (final revision). -/

/-- Model of a live `*websocket.Conn` (external gorilla/websocket handle):
only its open/closed observable matters to the client code. -/
structure WSConn where
  closed : Bool
deriving DecidableEq, Repr

/-- Nil-ness of the three caller-supplied handler callbacks (Go function
values may be nil; the validation code reads only that). The handlers'
behaviour is observed through the listener trace, not stored here. -/
abbrev HandlerSlot := Option Unit

/-- `ConnectionParams` of part_000/part_001. -/
structure ConnectionParams where
  ClientID : String
  HTTPAddr : List String
  WebsocketAddr : List String
  OnIncomingMessageReq : HandlerSlot
  OnOutgoingMessageRes : HandlerSlot
  OnError : HandlerSlot
deriving DecidableEq, Repr

/-- `Connection` struct of part_006 (final revision): params, the
websocket handle (`none` = nil pointer, i.e. `Connect` never succeeded),
and the HTTP client pool. The pool maps addresses to `*http.Client`
handles; pointer identity of a handle is modelled by the allocation
counter `nextClient` (each freshly created client gets the next id). -/
structure Connection where
  params : ConnectionParams
  underlyingConnection : Option WSConn
  httpClients : List (String × Nat)
  nextClient : Nat
deriving DecidableEq, Repr

/-- Go map read `c.httpClients[addr]`. -/
def lookupAddr (clients : List (String × Nat)) (addr : String) : Option Nat :=
  match clients with
  | [] => none
  | (a, h) :: rest => if a = addr then some h else lookupAddr rest addr

/-- `checkConnectionParams` (validations.go), with a nil `params` pointer
as `none`. Returns the error message, or `none` when the params are valid. -/
def checkConnectionParams (params : Option ConnectionParams) : Option String :=
  match params with
  | none => some "connection params cannot be nil"
  | some p =>
    if p.ClientID = "" then some "client id cannot be empty"
    else if p.HTTPAddr.length = 0 then some "http address list cannot be empty"
    else if p.WebsocketAddr.length = 0 then some "websocket address list cannot be empty"
    else if p.OnIncomingMessageReq = none then some "incoming message request handler cannot be nil"
    else if p.OnOutgoingMessageRes = none then some "outgoing message response handler cannot be nil"
    else if p.OnError = none then some "error handler cannot be nil"
    else none

/-- `NewConnection` (part_006 final revision): validates the params and
returns a `Connection` with a nil websocket handle, an empty client map
and a fresh mutex; performs no network I/O. A nil `params` pointer fails
validation before being dereferenced. -/
def NewConnection (params : Option ConnectionParams) : Except String Connection :=
  match params with
  | none => Except.error ("invalid connection params: " ++ "connection params cannot be nil")
  | some p =>
    match checkConnectionParams (some p) with
    | some e => Except.error ("invalid connection params: " ++ e)
    | none => Except.ok { params := p, underlyingConnection := none,
                          httpClients := [], nextClient := 0 }

/-- `httpClientForAddr` (part_006): under the pool mutex, return the
cached client for `addr`, creating and persisting a fresh one when absent.
The returned `Nat` is the (pointer identity of the) `*http.Client`. -/
def httpClientForAddr (c : Connection) (addr : String) : Nat × Connection :=
  match lookupAddr c.httpClients addr with
  | some h => (h, c)
  | none =>
    (c.nextClient,
     { c with httpClients := (addr, c.nextClient) :: c.httpClients,
              nextClient := c.nextClient + 1 })

/- ## Listener loop: `initListener` of part_006. -/

/-- Websocket frame kinds delivered by `ReadMessage` (gorilla constants). -/
inductive WSMessageType where
  | text
  | binary
  | close
  | ping
  | pong
deriving DecidableEq, Repr

/-- One result of the blocking `ReadMessage` call: a transport failure, or
a frame of some kind carrying a raw payload. -/
inductive ReadResult where
  | failure
  | frame (wsType : WSMessageType) (payload : RawMessage)

/-- The errors the listener passes to `OnError` (the wrapped sentinel /
cause, with the formatted message text abstracted away). -/
inductive ListenerErr where
  | connectionClosure
  | unknownMessageType
  | incomingDecodeFailure
  | outgoingResDecodeFailure
deriving DecidableEq, Repr

/-- One handler invocation made by the listener. `onError none none` is
the graceful-close invocation (nil payload, nil error). -/
inductive HandlerCall where
  | onError (message : Option RawMessage) (err : Option ListenerErr)
  | onIncomingMessageReq (req : IncomingMessageReq)
  | onOutgoingMessageRes (res : OutgoingMessageRes)

/-- `initListener` (part_006): the loop over successive `ReadMessage`
results, producing the sequence of handler invocations. A read failure or
a close frame breaks the loop (events after it are never read); binary,
ping, pong and text frames with a readable-but-unrecognized discriminant
are ignored and the loop continues. The input list models the prefix of
the read stream consumed so far; an exhausted list is the loop blocked in
`ReadMessage`. -/
def initListener (reads : List ReadResult) : List HandlerCall :=
  match reads with
  | [] => []
  | .failure :: _ => [.onError none (some .connectionClosure)]
  | .frame wsType message :: rest =>
    match wsType with
    | .close => [.onError none none]
    | .text =>
      match unmarshalMessageType message with
      | none => .onError (some message) (some .unknownMessageType) :: initListener rest
      | some messageType =>
        if messageType = typeIncomingMessageReq then
          match unmarshalIncomingMessageReq message with
          | none => .onError (some message) (some .incomingDecodeFailure) :: initListener rest
          | some inMessageReq => .onIncomingMessageReq inMessageReq :: initListener rest
        else if messageType = typeOutgoingMessageRes then
          match unmarshalOutgoingMessageRes message with
          | none => .onError (some message) (some .outgoingResDecodeFailure) :: initListener rest
          | some outMessageRes => .onOutgoingMessageRes outMessageRes :: initListener rest
        else
          -- "Unknown message types are simply ignored."
          initListener rest
    | _ => initListener rest

/- ## Send paths: `SendMessage` and `SendMessageAsync` of part_006. -/

/-- Outcome of `SendMessageAsync`. `panicked` is a Go runtime panic
(nil-pointer dereference), not a returned error. -/
inductive AsyncSendResult where
  | ok
  | writeErr
  | panicked
deriving DecidableEq, Repr

/-- `(*websocket.Conn).WriteMessage` called on a possibly-nil handle
(external gorilla/websocket behaviour): a call on the nil pointer
dereferences the nil receiver and panics; a call on a closed connection
returns a write error; otherwise the frame is written. -/
def writeMessage (conn : Option WSConn) : AsyncSendResult :=
  match conn with
  | none => .panicked
  | some c => if c.closed then .writeErr else .ok

/-- `SendMessageAsync` (part_006): sets `req.Type` in place (the request
is passed by pointer), marshals it, and writes the bytes onto the
websocket. Returns the mutated request together with the outcome;
marshalling of this struct cannot fail. -/
def SendMessageAsync (conn : Option WSConn) (req : OutgoingMessageReq) :
    OutgoingMessageReq × AsyncSendResult :=
  let req' := { req with Type' := typeOutgoingMessageReq }
  (req', writeMessage conn)

/-- Errors `SendMessage` can return. -/
inductive SendErr where
  | httpErr
  | decodeBodyErr
  | convertErr
deriving DecidableEq, Repr

/-- The HTTP response observed by `SendMessage`: its body bytes and the
value of `Header.Get("x-request-id")`. `none` at the call site is a
transport error from `httpClient.Do`. -/
structure HTTPResponse where
  body : RawMessage
  xRequestID : String

/-- `SendMessage` (part_006): sets `req.Type` in place, marshals the
request, picks a random address and a pooled client, issues the POST, then
decodes the body as `httpResponseBody`, passes the decoded value to
`toOutgoingMessageRes`, and back-fills `RequestID` from the
`x-request-id` header when the decoded one is empty. Returns the mutated
request, the pooled-client state after the call, and the result.

Note: the source passes the WHOLE `responseBody` envelope to
`toOutgoingMessageRes` (part_006 line 272), not `responseBody.Data`,
even though the adjacent comment says "Converting the responseBody.data
type"; the embedding reproduces that call faithfully by rendering the
struct through `marshalHTTPResponseBody`. -/
def SendMessage (c : Connection) (seed : Nat) (req : OutgoingMessageReq)
    (transport : Option HTTPResponse) :
    OutgoingMessageReq × Connection × Except SendErr OutgoingMessageRes :=
  let req' := { req with Type' := typeOutgoingMessageReq }
  let randomAddr := getRandomAddr seed c.params.HTTPAddr
  let c' := (httpClientForAddr c randomAddr).2
  let result : Except SendErr OutgoingMessageRes :=
    match transport with
    | none => Except.error .httpErr
    | some httpResponse =>
      match unmarshalHTTPResponse httpResponse.body with
      | none => Except.error .decodeBodyErr
      | some responseBody =>
        match toOutgoingMessageRes (marshalHTTPResponseBody responseBody) with
        | none => Except.error .convertErr
        | some outMessageRes =>
          let outMessageRes' :=
            if outMessageRes.RequestID = "" then
              { outMessageRes with RequestID := httpResponse.xRequestID }
            else outMessageRes
          Except.ok outMessageRes'
  (req', c', result)

/- ## Theorems -/

/-- `Except` success observable. -/
def exceptOk {ε α : Type _} : Except ε α → Bool
  | .ok _ => true
  | .error _ => false

/-- C5: when the blocking read fails, the listener invokes the error
handler with a nil payload and the (non-nil) connection-closed error and
terminates; on a graceful close frame it invokes the error handler with a
nil payload and a nil error and terminates; in both cases the rest of the
read stream is never consumed and no further handler calls are made, and
the two triggers are distinguished exactly by the presence of the error
value. -/
theorem initListener_terminates_on_failure_and_close
    (rest : List ReadResult) (payload : RawMessage) :
    initListener (ReadResult.failure :: rest)
      = [HandlerCall.onError none (some ListenerErr.connectionClosure)]
    ∧ initListener (ReadResult.frame WSMessageType.close payload :: rest)
      = [HandlerCall.onError none none] :=
  ⟨rfl, rfl⟩

/-- A concrete outgoing request used to evaluate the send paths. -/
def sampleOutgoingReq : OutgoingMessageReq :=
  { RequestID := "r1", ReceiverIDs := ["bob"], Message := [104, 105],
    Persist := "true", Type' := "" }

/-- C3 (code bug): `SendMessageAsync` on a `Connection` whose websocket
handle is nil (Connect never called or never succeeded) calls
`WriteMessage` on the nil `*websocket.Conn` and panics with a nil-pointer
dereference instead of returning a write error; on a present-but-closed
connection it does return a write error without a partial write. -/
theorem sendMessageAsync_nil_handle_panics :
    (SendMessageAsync none sampleOutgoingReq).2 = AsyncSendResult.panicked
    ∧ (SendMessageAsync (some { closed := true }) sampleOutgoingReq).2
        = AsyncSendResult.writeErr :=
  ⟨rfl, rfl⟩

/-- C10: both send paths overwrite the caller-supplied request's `Type`
field in place with the outgoing-request discriminant before serializing,
leave every other field unchanged, and the mutation happens regardless of
whether the send subsequently fails (any websocket-handle state, any
transport outcome). -/
theorem send_paths_mutate_request_type_in_place
    (c : Connection) (seed : Nat) (conn : Option WSConn)
    (req : OutgoingMessageReq) (transport : Option HTTPResponse) :
    (SendMessage c seed req transport).1 = { req with Type' := typeOutgoingMessageReq }
    ∧ (SendMessageAsync conn req).1 = { req with Type' := typeOutgoingMessageReq }
    ∧ (SendMessage c seed req transport).1.RequestID = req.RequestID
    ∧ (SendMessage c seed req transport).1.ReceiverIDs = req.ReceiverIDs
    ∧ (SendMessage c seed req transport).1.Message = req.Message
    ∧ (SendMessage c seed req transport).1.Persist = req.Persist
    ∧ (SendMessage c seed req transport).1.Type' = typeOutgoingMessageReq
    ∧ (SendMessageAsync conn req).1.RequestID = req.RequestID
    ∧ (SendMessageAsync conn req).1.ReceiverIDs = req.ReceiverIDs
    ∧ (SendMessageAsync conn req).1.Message = req.Message
    ∧ (SendMessageAsync conn req).1.Persist = req.Persist
    ∧ (SendMessageAsync conn req).1.Type' = typeOutgoingMessageReq :=
  ⟨rfl, rfl, rfl, rfl, rfl, rfl, rfl, rfl, rfl, rfl, rfl, rfl⟩

/-- C9: for a non-empty address list the random index generated by
`getRandomAddr` is always within bounds, so the result is an element of
the list; and every element is the result for some state of the random
source (taking the seed equal to the element's index). -/
theorem getRandomAddr_picks_list_element
    (addr : List String) (seed i : Nat) (h : addr ≠ []) (hi : i < addr.length) :
    randIntn seed addr.length < addr.length
    ∧ getRandomAddr seed addr ∈ addr
    ∧ getRandomAddr i addr = addr.get ⟨i, hi⟩ := by
  have hlen : 0 < addr.length := List.length_pos.mpr h
  have hbound : randIntn seed addr.length < addr.length := Nat.mod_lt _ hlen
  refine ⟨hbound, ?_, ?_⟩
  · have := List.getD_eq_getElem addr "" hbound
    rw [getRandomAddr, this]
    exact List.getElem_mem _
  · have hmod : randIntn i addr.length = i := Nat.mod_eq_of_lt hi
    rw [getRandomAddr, hmod, List.getD_eq_getElem addr "" hi]
    simp [List.get_eq_getElem]

/-- Witness for C9 at a concrete list: the bound holds, the chosen
address is in the list, and seed 1 produces the second element. -/
theorem getRandomAddr_picks_list_element_witness :
    randIntn 5 (["a", "b"] : List String).length < (["a", "b"] : List String).length
    ∧ getRandomAddr 5 ["a", "b"] ∈ (["a", "b"] : List String)
    ∧ getRandomAddr 1 ["a", "b"] = (["a", "b"] : List String).get ⟨1, by decide⟩ :=
  getRandomAddr_picks_list_element ["a", "b"] 5 1 (by decide) (by decide)

/-- C6: `NewConnection` fails with a validation error exactly when the
params pointer is nil, the client ID is empty, either address list is
empty, or any of the three handlers is nil; on success the returned
`Connection` keeps the params, has a nil websocket handle and an empty
client pool, and no network I/O is involved (the constructor only builds
the struct). -/
theorem newConnection_validates_params (p : ConnectionParams) (c : Connection) :
    exceptOk (NewConnection none) = false
    ∧ (exceptOk (NewConnection (some p)) = false ↔
        (p.ClientID = "" ∨ p.HTTPAddr = [] ∨ p.WebsocketAddr = []
          ∨ p.OnIncomingMessageReq = none ∨ p.OnOutgoingMessageRes = none
          ∨ p.OnError = none))
    ∧ (NewConnection (some p) = Except.ok c →
        c.params = p ∧ c.underlyingConnection = none
          ∧ c.httpClients = [] ∧ c.nextClient = 0) := by
  refine ⟨rfl, ?_, ?_⟩
  · rw [NewConnection, checkConnectionParams]
    split_ifs with h1 h2 h3 h4 h5 h6
    · simp [exceptOk, h1]
    · simp [exceptOk, List.length_eq_zero.mp h2]
    · simp [exceptOk, List.length_eq_zero.mp h3]
    · simp [exceptOk, h4]
    · simp [exceptOk, h5]
    · simp [exceptOk, h6]
    · simp only [exceptOk]
      constructor
      · intro hfalse
        exact absurd hfalse (by simp)
      · intro hcase
        rcases hcase with h | h | h | h | h | h
        · exact absurd h h1
        · exact absurd (by simp [h]) h2
        · exact absurd (by simp [h]) h3
        · exact absurd h h4
        · exact absurd h h5
        · exact absurd h h6
  · intro hok
    rw [NewConnection] at hok
    rcases hcheck : checkConnectionParams (some p) with _ | e
    · rw [hcheck] at hok
      cases hok
      exact ⟨rfl, rfl, rfl, rfl⟩
    · rw [hcheck] at hok
      cases hok

/-- Valid concrete params used by the C6 witness. -/
def sampleParams : ConnectionParams :=
  { ClientID := "alice", HTTPAddr := ["h1"], WebsocketAddr := ["w1"],
    OnIncomingMessageReq := some (), OnOutgoingMessageRes := some (),
    OnError := some () }

/-- Witness for C6: with all handlers present and non-empty lists the
construction succeeds (so the failure condition is false), and the
returned connection has a nil websocket handle and empty pool. -/
theorem newConnection_validates_params_witness :
    exceptOk (NewConnection none) = false
    ∧ (exceptOk (NewConnection (some sampleParams)) = false ↔
        (sampleParams.ClientID = "" ∨ sampleParams.HTTPAddr = []
          ∨ sampleParams.WebsocketAddr = []
          ∨ sampleParams.OnIncomingMessageReq = none
          ∨ sampleParams.OnOutgoingMessageRes = none
          ∨ sampleParams.OnError = none))
    ∧ (NewConnection (some sampleParams) = Except.ok
          { params := sampleParams, underlyingConnection := none,
            httpClients := [], nextClient := 0 } →
        ({ params := sampleParams, underlyingConnection := none,
           httpClients := [], nextClient := 0 } : Connection).params = sampleParams
          ∧ ({ params := sampleParams, underlyingConnection := none,
               httpClients := [], nextClient := 0 } : Connection).underlyingConnection = none
          ∧ ({ params := sampleParams, underlyingConnection := none,
               httpClients := [], nextClient := 0 } : Connection).httpClients = []
          ∧ ({ params := sampleParams, underlyingConnection := none,
               httpClients := [], nextClient := 0 } : Connection).nextClient = 0) :=
  newConnection_validates_params sampleParams
    { params := sampleParams, underlyingConnection := none,
      httpClients := [], nextClient := 0 }

/-- Decoding the re-marshalled whole envelope into `OutgoingMessageRes`
always succeeds with the zero struct: none of the envelope's keys
(`status_code`, `custom_code`, `data`) matches any `OutgoingMessageRes`
field tag, and unknown keys are ignored. -/
theorem toOutgoingMessageRes_envelope_eq_zero (env : httpResponseBody) :
    toOutgoingMessageRes (marshalHTTPResponseBody env)
      = some { RequestID := "", Code := "", Reason := "",
               PerReceiver := [], Type' := "" } := rfl

/-- The success path of `SendMessage` as implemented: since the decode
step reads the whole envelope, the decoded struct is always the zero
struct, whose empty request id is then always back-filled from the
`x-request-id` header — whatever the envelope's `data` field held. -/
theorem sendMessage_returns_backfilled_zero_struct
    (c : Connection) (seed : Nat) (req : OutgoingMessageReq)
    (resp : HTTPResponse) (env : httpResponseBody)
    (hbody : unmarshalHTTPResponse resp.body = some env) :
    (SendMessage c seed req (some resp)).2.2
      = Except.ok { RequestID := resp.xRequestID, Code := "", Reason := "",
                    PerReceiver := [], Type' := "" } := by
  rw [SendMessage]
  simp only [hbody, toOutgoingMessageRes_envelope_eq_zero]
  rfl

/-- Decoding a JSON array of strings produced by marshalling a Go
`[]string` recovers the original list. -/
theorem decodeStringList_map_str (xs : List String) :
    decodeStringList (xs.map Json.str) = some xs := by
  induction xs with
  | nil => rfl
  | cons x xs ih => simp [decodeStringList, decodeStringValue, ih]

/-- C8: stamping the `Type` discriminant and JSON-serializing an
`OutgoingMessageReq` exactly as `SendMessageAsync` does, then decoding the
resulting document back into an `OutgoingMessageReq`, yields a value equal
to the original in every field (request_id, receiver_ids, message,
persist) except the discriminant, which equals `OUTGOING_MESSAGE_REQ`. -/
theorem outgoingMessageReq_roundtrip (conn : Option WSConn) (req : OutgoingMessageReq) :
    unmarshalOutgoingMessageReqJson
        (marshalOutgoingMessageReq (SendMessageAsync conn req).1)
      = some { req with Type' := typeOutgoingMessageReq }
    ∧ ({ req with Type' := typeOutgoingMessageReq } : OutgoingMessageReq).RequestID
        = req.RequestID
    ∧ ({ req with Type' := typeOutgoingMessageReq } : OutgoingMessageReq).ReceiverIDs
        = req.ReceiverIDs
    ∧ ({ req with Type' := typeOutgoingMessageReq } : OutgoingMessageReq).Message
        = req.Message
    ∧ ({ req with Type' := typeOutgoingMessageReq } : OutgoingMessageReq).Persist
        = req.Persist := by
  refine ⟨?_, rfl, rfl, rfl, rfl⟩
  simp [SendMessageAsync, marshalOutgoingMessageReq, unmarshalOutgoingMessageReqJson,
        decodeStringField, decodeBytesField, decodeStringListField, jsonLookup,
        decodeStringValue, decodeBytesValue, decodeStringListValue,
        decodeStringList_map_str]

/- ## Client pool lemmas (part_006, `httpClientForAddr`). -/

/-- A sequence of `httpClientForAddr` calls threaded through the pool. -/
def runCalls (c : Connection) (addrs : List String) : Connection :=
  addrs.foldl (fun st a => (httpClientForAddr st a).2) c

/-- `emptyPool c` is `c` with the pool as `NewConnection` initializes it:
the empty map and no clients allocated yet. -/
def emptyPool (c : Connection) : Connection :=
  { c with httpClients := [], nextClient := 0 }

/-- Pool well-formedness: every cached handle was allocated below the
counter, and entries pairwise disagree on both address and handle. -/
def poolInv (c : Connection) : Prop :=
  (∀ e ∈ c.httpClients, e.2 < c.nextClient)
  ∧ c.httpClients.Pairwise (fun x y => x.1 ≠ y.1 ∧ x.2 ≠ y.2)

theorem lookupAddr_none_forall {l : List (String × Nat)} {a : String}
    (h : lookupAddr l a = none) : ∀ e ∈ l, e.1 ≠ a := by
  induction l with
  | nil => intro e he; cases he
  | cons x xs ih =>
    intro e he
    rw [lookupAddr] at h
    by_cases hx : x.1 = a
    · rw [if_pos hx] at h; cases h
    · rw [if_neg hx] at h
      rcases List.mem_cons.mp he with rfl | hmem
      · exact hx
      · exact ih h e hmem

theorem lookupAddr_some_mem {l : List (String × Nat)} {a : String} {h : Nat}
    (hl : lookupAddr l a = some h) : (a, h) ∈ l := by
  induction l with
  | nil => cases hl
  | cons x xs ih =>
    obtain ⟨k, v⟩ := x
    rw [lookupAddr] at hl
    by_cases hx : k = a
    · rw [if_pos hx] at hl
      cases hl
      subst hx
      exact List.mem_cons_self _ _
    · rw [if_neg hx] at hl
      exact List.mem_cons_of_mem _ (ih hl)

/-- One `httpClientForAddr` call preserves pool well-formedness. -/
theorem poolInv_step {c : Connection} (hc : poolInv c) (a : String) :
    poolInv (httpClientForAddr c a).2 := by
  rw [httpClientForAddr]
  rcases hl : lookupAddr c.httpClients a with _ | h
  · refine ⟨?_, ?_⟩
    · intro e he
      rcases List.mem_cons.mp he with rfl | hmem
      · exact Nat.lt_succ_self _
      · exact Nat.lt_succ_of_lt (hc.1 e hmem)
    · refine List.Pairwise.cons ?_ hc.2
      intro e hmem
      exact ⟨fun heq => lookupAddr_none_forall hl e hmem (heq.symm),
             fun heq => Nat.lt_irrefl _ (heq ▸ hc.1 e hmem)⟩
  · exact hc

/-- Pool well-formedness holds after any sequence of calls. -/
theorem poolInv_runCalls {c : Connection} (hc : poolInv c) (addrs : List String) :
    poolInv (runCalls c addrs) := by
  induction addrs generalizing c with
  | nil => exact hc
  | cons a addrs ih => exact ih (poolInv_step hc a)

/-- The freshly started pool is well-formed. -/
theorem poolInv_emptyPool (c : Connection) : poolInv (emptyPool c) :=
  ⟨fun e he => absurd he (List.not_mem_nil e), List.Pairwise.nil⟩

/-- A second call with the same address returns the identical cached
handle and leaves the pool untouched. -/
theorem httpClientForAddr_idem (c : Connection) (a : String) :
    httpClientForAddr (httpClientForAddr c a).2 a
      = ((httpClientForAddr c a).1, (httpClientForAddr c a).2) := by
  rcases hl : lookupAddr c.httpClients a with _ | h
  · have h2 : (httpClientForAddr c a).2
        = { c with httpClients := (a, c.nextClient) :: c.httpClients,
                   nextClient := c.nextClient + 1 } := by
      simp [httpClientForAddr, hl]
    have h1 : (httpClientForAddr c a).1 = c.nextClient := by
      simp [httpClientForAddr, hl]
    rw [h2, h1]
    simp [httpClientForAddr, lookupAddr]
  · have h2 : (httpClientForAddr c a).2 = c := by
      simp [httpClientForAddr, hl]
    have h1 : (httpClientForAddr c a).1 = h := by
      simp [httpClientForAddr, hl]
    rw [h2, h1]
    simp [httpClientForAddr, hl]

/-- In a well-formed pool, entries at distinct addresses hold distinct
handles. -/
theorem pool_handles_injective {l : List (String × Nat)}
    (hp : l.Pairwise (fun x y => x.1 ≠ y.1 ∧ x.2 ≠ y.2))
    {a b : String} {ha hb : Nat}
    (hma : (a, ha) ∈ l) (hmb : (b, hb) ∈ l) (hab : a ≠ b) : ha ≠ hb := by
  induction l with
  | nil => cases hma
  | cons x xs ih =>
    rcases List.pairwise_cons.mp hp with ⟨hx, hxs⟩
    rcases List.mem_cons.mp hma with rfl | hma'
    · rcases List.mem_cons.mp hmb with heq | hmb'
      · injection heq with h1 _
        exact absurd h1.symm hab
      · exact (hx _ hmb').2
    · rcases List.mem_cons.mp hmb with rfl | hmb'
      · exact fun h => (hx _ hma').2 h.symm
      · exact ih hxs hma' hmb'

/-- The handle a call returns for `a` is cached under `a` afterwards. -/
theorem httpClientForAddr_mem_after (c : Connection) (a : String) :
    (a, (httpClientForAddr c a).1) ∈ (httpClientForAddr c a).2.httpClients := by
  rw [httpClientForAddr]
  rcases hl : lookupAddr c.httpClients a with _ | h
  · exact List.mem_cons_self _ _
  · exact lookupAddr_some_mem hl

/-- In a well-formed pool already holding `(a, h)`, a call for a distinct
address `b` returns a handle different from `h`. -/
theorem httpClientForAddr_ne_of_mem {d : Connection} (hd : poolInv d)
    {a b : String} {h : Nat}
    (hmem : (a, h) ∈ d.httpClients) (hab : a ≠ b) :
    (httpClientForAddr d b).1 ≠ h := by
  rw [httpClientForAddr]
  rcases hl : lookupAddr d.httpClients b with _ | hb
  · -- b absent: the fresh handle is the counter, above every cached handle
    have := hd.1 _ hmem
    simp only
    omega
  · -- b cached: two entries at distinct keys hold distinct handles
    have hmemb := lookupAddr_some_mem hl
    exact fun heq => pool_handles_injective hd.2 hmem hmemb hab heq.symm

/-- In a well-formed pool, calls with distinct addresses return distinct
handles. -/
theorem httpClientForAddr_distinct {c : Connection} (hc : poolInv c)
    {a b : String} (hab : a ≠ b) :
    (httpClientForAddr ((httpClientForAddr c a).2) b).1
      ≠ (httpClientForAddr c a).1 :=
  httpClientForAddr_ne_of_mem (poolInv_step hc a)
    (httpClientForAddr_mem_after c a) hab

/-- Well-formedness gives uniqueness of pool entries per address. -/
theorem pool_keys_nodup {c : Connection} (hc : poolInv c) :
    (c.httpClients.map Prod.fst).Nodup :=
  List.Pairwise.map Prod.fst (fun _ _ h => h.1) hc.2

/-- Pool entries survive any later call (never evicted). -/
theorem httpClientForAddr_preserves_entries {c : Connection} {e : String × Nat}
    (he : e ∈ c.httpClients) (x : String) :
    e ∈ (httpClientForAddr c x).2.httpClients := by
  rcases hl : lookupAddr c.httpClients x with _ | h
  · simp only [httpClientForAddr, hl]
    exact List.mem_cons_of_mem _ he
  · simp only [httpClientForAddr, hl]
    exact he

/-- A connection as returned by a successful `NewConnection`, used to
anchor the pool theorems at the constructor's initial pool state. -/
def sampleConnection : Connection :=
  { params := sampleParams, underlyingConnection := none,
    httpClients := [], nextClient := 0 }

/-- C7: over any sequence of `httpClientForAddr` calls started from the
constructor's empty pool — (i) a repeated call with the same address
returns the identical cached handle and (ii) leaves the pool untouched;
(iii) calls with distinct addresses return distinct handles; (iv) at most
one entry exists per address; (v) entries are never removed by later
calls; and (vi) an entry is created lazily exactly on first use. The
operation itself is total (it never fails). -/
theorem httpClientForAddr_pool_spec (c0 : Connection) (calls : List String)
    (a b x : String) (e : String × Nat) (hab : a ≠ b) :
    (httpClientForAddr ((httpClientForAddr (runCalls (emptyPool c0) calls) a).2) a).1
        = (httpClientForAddr (runCalls (emptyPool c0) calls) a).1
    ∧ (httpClientForAddr ((httpClientForAddr (runCalls (emptyPool c0) calls) a).2) a).2
        = (httpClientForAddr (runCalls (emptyPool c0) calls) a).2
    ∧ (httpClientForAddr ((httpClientForAddr (runCalls (emptyPool c0) calls) a).2) b).1
        ≠ (httpClientForAddr (runCalls (emptyPool c0) calls) a).1
    ∧ ((runCalls (emptyPool c0) calls).httpClients.map Prod.fst).Nodup
    ∧ (e ∈ (runCalls (emptyPool c0) calls).httpClients →
        e ∈ (httpClientForAddr (runCalls (emptyPool c0) calls) x).2.httpClients)
    ∧ (lookupAddr (runCalls (emptyPool c0) calls).httpClients x = none →
        (httpClientForAddr (runCalls (emptyPool c0) calls) x).2.httpClients
          = (x, (runCalls (emptyPool c0) calls).nextClient)
              :: (runCalls (emptyPool c0) calls).httpClients) := by
  have hinv := poolInv_runCalls (poolInv_emptyPool c0) calls
  have hid := httpClientForAddr_idem (runCalls (emptyPool c0) calls) a
  refine ⟨congrArg Prod.fst hid, congrArg Prod.snd hid,
          httpClientForAddr_distinct hinv hab, pool_keys_nodup hinv,
          fun he => httpClientForAddr_preserves_entries he x, fun hl => ?_⟩
  simp only [httpClientForAddr, hl]

/-- Witness for C7 at a concrete call history: after calls for "u" and
"v", a call for "w" from the state left by a call for "u" returns a
handle distinct from the one returned for "u". -/
theorem httpClientForAddr_pool_spec_witness :
    (httpClientForAddr
        ((httpClientForAddr (runCalls (emptyPool sampleConnection) ["u", "v"]) "u").2) "w").1
      ≠ (httpClientForAddr (runCalls (emptyPool sampleConnection) ["u", "v"]) "u").1 :=
  (httpClientForAddr_pool_spec sampleConnection ["u", "v"] "u" "w" "z" ("z", 0)
    (by decide)).2.2.1

/- ## Listener dispatch on the scripted frame sequence. -/

/-- A well-formed incoming-request frame payload. -/
def incomingFramePayload : RawMessage :=
  .wellFormed (.obj [("type", .str "INCOMING_MESSAGE_REQ"), ("request_id", .str "q1"),
                     ("sender_id", .str "alice"), ("message", .bytes [104, 105]),
                     ("persist", .str "true")])

/-- A well-formed envelope whose `type` tag is a string the client does
not recognize. -/
def unknownDiscriminantPayload : RawMessage :=
  .wellFormed (.obj [("type", .str "SOME_UNKNOWN_TYPE"), ("request_id", .str "q2")])

/-- A payload that is not a well-formed JSON envelope. -/
def malformedPayload : RawMessage := .malformed 0

/-- The spec's scripted sequence: a well-formed incoming-request, an
unknown-discriminant frame, a malformed envelope, then a graceful close. -/
def scriptedReads : List ReadResult :=
  [.frame .text incomingFramePayload, .frame .text unknownDiscriminantPayload,
   .frame .text malformedPayload, .frame .close (.malformed 1)]

/-- The decoded form of `incomingFramePayload`. -/
def decodedIncomingReq : IncomingMessageReq :=
  { RequestID := "q1", SenderID := "alice", Message := [104, 105],
    Persist := "true", Type' := "INCOMING_MESSAGE_REQ" }

/-- Recognizes an error-handler invocation carrying a non-nil error. -/
def isNonNilErrorCall : HandlerCall → Bool
  | .onError _ (some _) => true
  | _ => false

/-- C1 counterexample: a text frame whose envelope is well-formed and
whose `type` tag is a string, but unrecognized, produces no handler call
at all (the listener silently ignores it), and on the scripted sequence
the error handler fires with a non-nil error exactly once — for the
malformed envelope — not twice as the claim states. -/
theorem listener_ignores_unknown_discriminant_cex :
    initListener [ReadResult.frame WSMessageType.text unknownDiscriminantPayload] = []
    ∧ ((initListener scriptedReads).filter isNonNilErrorCall).length = 1
    ∧ ¬ ((initListener scriptedReads).filter isNonNilErrorCall).length = 2 :=
  ⟨rfl, rfl, by decide⟩

/-- C1 (amended): if extracting the discriminant fails (malformed
envelope, absent or non-string `type` field) the listener invokes the
error handler with the raw payload and the unknown-message-type error and
continues listening; if extraction succeeds but the tag is unrecognized
the frame is silently ignored and listening continues; on the scripted
sequence the incoming-message handler fires exactly once and the error
handler fires exactly once (for the malformed envelope) before the final
graceful-close invocation. -/
theorem listener_unknown_discriminant_amended
    (m : RawMessage) (t : String) (rest : List ReadResult) :
    (unmarshalMessageType m = none →
      initListener (ReadResult.frame WSMessageType.text m :: rest)
        = HandlerCall.onError (some m) (some ListenerErr.unknownMessageType)
            :: initListener rest)
    ∧ (unmarshalMessageType m = some t → t ≠ typeIncomingMessageReq →
        t ≠ typeOutgoingMessageRes →
      initListener (ReadResult.frame WSMessageType.text m :: rest)
        = initListener rest)
    ∧ initListener scriptedReads
        = [HandlerCall.onIncomingMessageReq decodedIncomingReq,
           HandlerCall.onError (some malformedPayload) (some ListenerErr.unknownMessageType),
           HandlerCall.onError none none]
    ∧ ((initListener scriptedReads).filter isNonNilErrorCall).length = 1 := by
  refine ⟨?_, ?_, rfl, rfl⟩
  · intro h
    simp [initListener, h]
  · intro h h1 h2
    simp [initListener, h, h1, h2]

/-- Witness for the amended C1: the malformed envelope alone triggers one
error-handler call with the raw payload and the unknown-message-type
error. -/
theorem listener_unknown_discriminant_amended_witness :
    initListener [ReadResult.frame WSMessageType.text malformedPayload]
      = [HandlerCall.onError (some malformedPayload) (some ListenerErr.unknownMessageType)] :=
  (listener_unknown_discriminant_amended malformedPayload "X" []).1 rfl

/- ## Concrete stub for the synchronous send path. -/

/-- The stub envelope's `data`: an outgoing-message response whose
`request_id` is empty. -/
def sampleDataJson : Json :=
  .obj [("request_id", .str ""), ("code", .str "OK")]

/-- A stub point-to-point response: body
`{"status_code": 200, "custom_code": "OK", "data": {...}}` with transport
header `x-request-id: abc`. -/
def sampleHTTPResponse : HTTPResponse :=
  { body := .wellFormed (.obj [("status_code", .num 200), ("custom_code", .str "OK"),
                               ("data", sampleDataJson)]),
    xRequestID := "abc" }

/-- The re-decoding of `sampleDataJson` as an outgoing-message response
(what the spec says `SendMessage` should compute from the stub). -/
def sampleDecodedRes : OutgoingMessageRes :=
  { RequestID := "", Code := "OK", Reason := "", PerReceiver := [], Type' := "" }

/-- C2 (code bug): the source passes the whole `{status_code,
custom_code, data}` envelope to `toOutgoingMessageRes` instead of its
`data` field (part_006 line 272; the adjacent comment says
`responseBody.data`), and no envelope key matches an `OutgoingMessageRes`
field, so the decode always yields the zero struct: against the stub the
program returns `Code = ""` with only the back-filled request id, while
the re-decoding of the `data` field — what the claim and spec describe —
yields `Code = "OK"`. -/
theorem sendMessage_decodes_whole_envelope_not_data :
    (SendMessage sampleConnection 0 sampleOutgoingReq (some sampleHTTPResponse)).2.2
      = Except.ok { RequestID := "abc", Code := "", Reason := "",
                    PerReceiver := [], Type' := "" }
    ∧ toOutgoingMessageRes sampleDataJson = some sampleDecodedRes
    ∧ sampleDecodedRes.Code = "OK"
    ∧ ({ RequestID := "abc", Code := "", Reason := "", PerReceiver := [],
         Type' := "" } : OutgoingMessageRes)
        ≠ { sampleDecodedRes with RequestID := sampleHTTPResponse.xRequestID } :=
  ⟨rfl, rfl, rfl, by decide⟩

/-- A stub `data` field carrying a non-empty request id. -/
def xyzDataJson : Json :=
  .obj [("request_id", .str "xyz"), ("code", .str "OK")]

/-- A stub point-to-point response whose `data` carries request id `xyz`
while the transport header `x-request-id` is `abc`. -/
def xyzHTTPResponse : HTTPResponse :=
  { body := .wellFormed (.obj [("status_code", .num 200), ("custom_code", .str "OK"),
                               ("data", xyzDataJson)]),
    xRequestID := "abc" }

/-- C4 (code bug): because the decode step reads the whole envelope, the
decoded struct's request id is always empty and the header back-fill
always fires: with the `data` field carrying the non-empty request id
`xyz` and header `abc`, the program returns `abc` rather than `xyz`
unchanged as the claim states. (The claim's own stub case — empty decoded
request id back-filled to `abc` — is the one behaviour the program always
exhibits.) -/
theorem sendMessage_backfill_always_fires :
    (SendMessage sampleConnection 0 sampleOutgoingReq (some xyzHTTPResponse)).2.2
      = Except.ok { RequestID := "abc", Code := "", Reason := "",
                    PerReceiver := [], Type' := "" }
    ∧ toOutgoingMessageRes xyzDataJson
        = some { RequestID := "xyz", Code := "OK", Reason := "",
                 PerReceiver := [], Type' := "" }
    ∧ ("abc" : String) ≠ "xyz" :=
  ⟨rfl, rfl, by decide⟩
